import Mathlib

/-!
Shallow embedding of the gotify webhook-forwarder plugin (plugin.go).

The request handler decodes a JSON object body into a Go
`map[string]interface{}`; we model decoded JSON values by `JsonVal`
(Go's encoding/json produces float64 for every JSON number, modelled
here by a rational) and the decoded object by an association list.
The gotify message sink (`plugin.MessageHandler`) is modelled by an
optional function from messages to an optional error string, and each
handler returns the HTTP response it writes together with the message
it passed to the sink's SendMessage, if any.
-/

/-- A decoded JSON value, as Go's encoding/json produces inside a
`map[string]interface{}`: nil, bool, float64 (modelled as a rational),
string, `[]interface{}`, or a nested `map[string]interface{}`. -/
inductive JsonVal where
  | null : JsonVal
  | bool (b : Bool) : JsonVal
  | num (q : ℚ) : JsonVal
  | str (s : String) : JsonVal
  | arr (xs : List JsonVal) : JsonVal
  | obj (o : List (String × JsonVal)) : JsonVal

/-- The decoded request body: Go's `map[string]interface{}`, modelled
as an association list (first binding of a key wins). -/
abbrev RawPayload := List (String × JsonVal)

/-- Association-list lookup, modelling Go map indexing `m[key]`
(`none` when the key is absent). -/
def alookup {α : Type} : List (String × α) → String → Option α
  | [], _ => none
  | (k, v) :: rest, key => if k = key then some v else alookup rest key

/-- Go's type assertion `rawBody[key].(string)` followed by the
zero-value default: yields the string when the key holds a JSON
string, and `""` when the key is absent or of another type. -/
def lookupStr (raw : RawPayload) (key : String) : String :=
  match alookup raw key with
  | some (JsonVal.str s) => s
  | _ => ""

/-- Go's type assertion `rawBody[key].(map[string]interface{})` with
nil-map default: the object when the key holds one, else empty. -/
def lookupObj (raw : RawPayload) (key : String) : List (String × JsonVal) :=
  match alookup raw key with
  | some (JsonVal.obj o) => o
  | _ => []

/-- Go's conversion `int(f)` on a float64: truncation toward zero. -/
def ratTrunc (q : ℚ) : Int :=
  if 0 ≤ q then q.floor else q.ceil

/-- The priority extraction of `handleGenericWebhook`: the type
assertion `rawBody["priority"].(float64)` converted by `int(...)`
(every JSON number decodes to float64; the `int` assertion branch of
the Go code is unreachable), with the zero value 0 when the key is
absent or not a number. -/
def lookupPriority (raw : RawPayload) : Int :=
  match alookup raw "priority" with
  | some (JsonVal.num q) => ratTrunc q
  | _ => 0

/-- A `plugin.Message` handed to `MessageHandler.SendMessage`. -/
structure PluginMessage where
  title : String
  message : String
  priority : Int
  extras : List (String × JsonVal)

/-- The sink's SendMessage behaviour: `some e` is a non-nil error with
message `e`, `none` is success. -/
abbrev Sink := PluginMessage → Option String

/-- A JSON value in a response body written by `c.JSON` (only strings
and booleans occur). -/
inductive RespVal where
  | str (s : String) : RespVal
  | bool (b : Bool) : RespVal
deriving DecidableEq

/-- An HTTP response written by `c.JSON(status, gin.H{...})`. -/
structure Response where
  status : Nat
  body : List (String × RespVal)
deriving DecidableEq

/-- What one request produces: the response written, and the message
passed to the sink's SendMessage if the handler invoked it. -/
structure HandlerResult where
  response : Response
  sent : Option PluginMessage

/-- The generic-path normalization of `handleGenericWebhook`
(plugin.go lines 221-256): extract title/message/priority/extras by
type assertion, reject an empty message, default the title to
"Webhook Message" and an out-of-range priority to 5. `none` means the
400 "Message field is required" rejection. -/
def buildGenericMessage (raw : RawPayload) : Option PluginMessage :=
  let message := lookupStr raw "message"
  if message = "" then none
  else
    let title0 := lookupStr raw "title"
    let title := if title0 = "" then "Webhook Message" else title0
    let p0 := lookupPriority raw
    let priority := if p0 ≤ 0 ∨ 10 < p0 then 5 else p0
    some { title := title, message := message, priority := priority,
           extras := lookupObj raw "extras" }

/-- The delivery step shared by both handlers: 503 when `p.msgHandler`
is nil, otherwise SendMessage and map its outcome to 500 or 200. -/
def deliverResult (sink : Option Sink) (m : PluginMessage)
    (okResp : Response) (failResp : String → Response)
    (unavailResp : Response) : HandlerResult :=
  match sink with
  | none => ⟨unavailResp, none⟩
  | some f =>
    match f m with
    | some e => ⟨failResp e, some m⟩
    | none => ⟨okResp, some m⟩

/-- `handleGenericWebhook` (plugin.go lines 210-285). -/
def handleGenericWebhook (sink : Option Sink) (raw : RawPayload) :
    HandlerResult :=
  match buildGenericMessage raw with
  | none =>
    ⟨⟨400, [("error", RespVal.str "Message field is required")]⟩, none⟩
  | some m =>
    deliverResult sink m
      ⟨200, [("success", RespVal.bool true),
             ("message", RespVal.str "Message forwarded successfully")]⟩
      (fun e => ⟨500, [("error", RespVal.str "Failed to forward message"),
                       ("details", RespVal.str e)]⟩)
      ⟨503, [("error", RespVal.str "Message handler not available")]⟩

/-- The priority derivation of `handleGrafanaWebhook` (plugin.go lines
315-321). -/
def grafanaPriority (status state : String) : Int :=
  if status = "firing" ∨ state = "alerting" then 8
  else if status = "resolved" ∨ state = "ok" then 3
  else 5

/-- The title fallback of `handleGrafanaWebhook` (lines 323-331). -/
def grafanaTitle (title0 status : String) : String :=
  if title0 = "" then
    if status ≠ "" then "Grafana Alert: " ++ status else "Grafana Alert"
  else title0

/-- The extras built by `handleGrafanaWebhook` (lines 339-356):
always `source = "grafana"`, plus status/state when non-empty and the
three URLs when present in the body as non-empty strings. -/
def grafanaExtras (raw : RawPayload) : List (String × JsonVal) :=
  let status := lookupStr raw "status"
  let state := lookupStr raw "state"
  [("source", JsonVal.str "grafana")]
  ++ (if status ≠ "" then [("status", JsonVal.str status)] else [])
  ++ (if state ≠ "" then [("state", JsonVal.str state)] else [])
  ++ (if lookupStr raw "externalURL" ≠ "" then
        [("externalURL", JsonVal.str (lookupStr raw "externalURL"))] else [])
  ++ (if lookupStr raw "dashboardURL" ≠ "" then
        [("dashboardURL", JsonVal.str (lookupStr raw "dashboardURL"))] else [])
  ++ (if lookupStr raw "silenceURL" ≠ "" then
        [("silenceURL", JsonVal.str (lookupStr raw "silenceURL"))] else [])

/-- The message `handleGrafanaWebhook` builds before delivery (lines
299-356): title/message/status/state extracted by string assertion,
priority from status/state, title and body fallbacks, grafana extras. -/
def buildGrafanaMessage (raw : RawPayload) : PluginMessage :=
  let status := lookupStr raw "status"
  let state := lookupStr raw "state"
  let message0 := lookupStr raw "message"
  { title := grafanaTitle (lookupStr raw "title") status,
    message := if message0 = "" then "Alert notification from Grafana"
               else message0,
    priority := grafanaPriority status state,
    extras := grafanaExtras raw }

/-- `handleGrafanaWebhook` (plugin.go lines 288-386). -/
def handleGrafanaWebhook (sink : Option Sink) (raw : RawPayload) :
    HandlerResult :=
  deliverResult sink (buildGrafanaMessage raw)
    ⟨200, [("success", RespVal.bool true),
           ("message", RespVal.str "Grafana alert forwarded successfully"),
           ("type", RespVal.str "grafana")]⟩
    (fun e => ⟨500, [("error", RespVal.str "Failed to forward Grafana alert"),
                     ("details", RespVal.str e)]⟩)
    ⟨503, [("error", RespVal.str "Message handler not available")]⟩

/-- The dispatch of `handleWebhookMessage` on a decoded body (lines
199-206): the Grafana path exactly when the key "alerts" is present,
whatever its value. -/
def classifyAndHandle (sink : Option Sink) (raw : RawPayload) :
    HandlerResult :=
  if (alookup raw "alerts").isSome then handleGrafanaWebhook sink raw
  else handleGenericWebhook sink raw

/-- The decode outcome of `c.ShouldBindJSON(&rawBody)`: an error
string, a nil map (JSON null body), or a decoded object. -/
abbrev DecodeOutcome := Except String (Option RawPayload)

/-- `handleWebhookMessage` after the Content-Type gate (lines
182-206): decode error → 400, nil body → 400, else classify. -/
def decodePhase (sink : Option Sink) (decoded : DecodeOutcome) :
    HandlerResult :=
  match decoded with
  | Except.error e =>
    ⟨⟨400, [("error", RespVal.str "Invalid JSON payload"),
            ("details", RespVal.str e)]⟩, none⟩
  | Except.ok none =>
    ⟨⟨400, [("error", RespVal.str "Empty request body")]⟩, none⟩
  | Except.ok (some raw) => classifyAndHandle sink raw

/-- `handleWebhookMessage` (plugin.go lines 161-207). `contentType` is
`c.GetHeader("Content-Type")`, which is `""` when the header is
absent; the body's decode outcome is passed as a parameter so that the
gate's independence from it is expressible. -/
def handleWebhookMessage (sink : Option Sink) (contentType : String)
    (decoded : DecodeOutcome) : HandlerResult :=
  if contentType ≠ "application/json" ∧ contentType ≠ "" then
    ⟨⟨400, [("error",
        RespVal.str "Content-Type must be application/json")]⟩, none⟩
  else decodePhase sink decoded

/-- A sink whose SendMessage always succeeds. -/
def okSink : Sink := fun _ => none

/-- A sink whose SendMessage always fails with error text "boom". -/
def boomSink : Sink := fun _ => some "boom"

/-! ### Helper lemmas -/

/-- When `lookupStr` is applied at a key equal in two payloads, the
results agree. -/
lemma lookupStr_congr (r₁ r₂ : RawPayload) (k : String)
    (h : alookup r₁ k = alookup r₂ k) : lookupStr r₁ k = lookupStr r₂ k := by
  unfold lookupStr
  rw [h]

/-- When the key holds a JSON string, `lookupStr` returns it. -/
lemma lookupStr_of_str (raw : RawPayload) (k : String) (s : String)
    (h : alookup raw k = some (JsonVal.str s)) : lookupStr raw k = s := by
  unfold lookupStr
  rw [h]

/-- When the key is absent or not a string, `lookupStr` returns `""`. -/
lemma lookupStr_of_not_str (raw : RawPayload) (k : String)
    (h : ∀ s, alookup raw k ≠ some (JsonVal.str s)) : lookupStr raw k = "" := by
  unfold lookupStr
  split
  · next s hs => exact absurd hs (h s)
  · rfl

/-- When the key is absent or not a number, `lookupPriority` returns
the Go zero value 0. -/
lemma lookupPriority_of_not_num (raw : RawPayload)
    (h : ∀ q, alookup raw "priority" ≠ some (JsonVal.num q)) :
    lookupPriority raw = 0 := by
  unfold lookupPriority
  split
  · next q hq => exact absurd hq (h q)
  · rfl

/-- When the key holds a JSON number, `lookupPriority` truncates it. -/
lemma lookupPriority_of_num (raw : RawPayload) (q : ℚ)
    (h : alookup raw "priority" = some (JsonVal.num q)) :
    lookupPriority raw = ratTrunc q := by
  unfold lookupPriority
  rw [h]

/-- Characterization of a successful generic normalization: every
field of the produced message, and the non-emptiness of its body. -/
lemma buildGenericMessage_some (raw : RawPayload) (m : PluginMessage)
    (h : buildGenericMessage raw = some m) :
    m.message = lookupStr raw "message" ∧ m.message ≠ "" ∧
    m.title = (if lookupStr raw "title" = "" then "Webhook Message"
               else lookupStr raw "title") ∧
    m.priority = (if lookupPriority raw ≤ 0 ∨ 10 < lookupPriority raw then 5
                  else lookupPriority raw) ∧
    m.extras = lookupObj raw "extras" := by
  simp only [buildGenericMessage] at h
  split at h
  · exact absurd h (by simp)
  · next hne =>
    injection h with h
    subst h
    exact ⟨rfl, hne, rfl, rfl, rfl⟩

/-- Successful normalization when the body key holds a non-empty
string. -/
lemma buildGenericMessage_of_message (raw : RawPayload) (s : String)
    (hs : alookup raw "message" = some (JsonVal.str s)) (hne : s ≠ "") :
    buildGenericMessage raw = some
      ⟨(if lookupStr raw "title" = "" then "Webhook Message"
        else lookupStr raw "title"), s,
       (if lookupPriority raw ≤ 0 ∨ 10 < lookupPriority raw then 5
        else lookupPriority raw),
       lookupObj raw "extras"⟩ := by
  have hl := lookupStr_of_str raw "message" s hs
  simp only [buildGenericMessage, hl, if_neg hne]

/-- Rejection when the extracted body is the empty string. -/
lemma buildGenericMessage_of_empty (raw : RawPayload)
    (h : lookupStr raw "message" = "") : buildGenericMessage raw = none := by
  simp only [buildGenericMessage, h, if_pos]

/-- With a configured sink, delivery always passes the built message
to SendMessage, whatever the send outcome. -/
lemma deliverResult_sent (f : Sink) (m : PluginMessage) (ok : Response)
    (fail : String → Response) (un : Response) :
    (deliverResult (some f) m ok fail un).sent = some m := by
  cases hf : f m <;> simp [deliverResult, hf]

/-- Without a sink, delivery sends nothing and answers the
unavailable response. -/
lemma deliverResult_none (m : PluginMessage) (ok : Response)
    (fail : String → Response) (un : Response) :
    deliverResult none m ok fail un = ⟨un, none⟩ := rfl

/-- A generic request's message reaches the sink exactly when
normalization produced it. -/
lemma handleGenericWebhook_sent (sink : Option Sink) (raw : RawPayload)
    (m : PluginMessage) (h : (handleGenericWebhook sink raw).sent = some m) :
    buildGenericMessage raw = some m := by
  cases hb : buildGenericMessage raw with
  | none => simp [handleGenericWebhook, hb] at h
  | some m0 =>
    simp only [handleGenericWebhook, hb] at h
    cases sink with
    | none => rw [deliverResult_none] at h; exact absurd h (by simp)
    | some f =>
      rw [deliverResult_sent] at h
      injection h with h
      rw [h]

/-- A Grafana request's message reaching the sink is the built one. -/
lemma handleGrafanaWebhook_sent (sink : Option Sink) (raw : RawPayload)
    (m : PluginMessage) (h : (handleGrafanaWebhook sink raw).sent = some m) :
    m = buildGrafanaMessage raw := by
  simp only [handleGrafanaWebhook] at h
  cases sink with
  | none => rw [deliverResult_none] at h; exact absurd h (by simp)
  | some f =>
    rw [deliverResult_sent] at h
    injection h with h
    exact h.symm

/-- When the sink is present, the generic handler sends the
normalized message. -/
lemma handleGenericWebhook_sends (f : Sink) (raw : RawPayload)
    (m : PluginMessage) (hb : buildGenericMessage raw = some m) :
    (handleGenericWebhook (some f) raw).sent = some m := by
  unfold handleGenericWebhook
  rw [hb]
  exact deliverResult_sent f m _ _ _

/-! ### Claim theorems -/

/-- C1: for every decoded JSON-object payload, the handler takes the
Grafana path exactly when the payload contains a key named "alerts"
(whatever its value), and the generic path when that key is absent. -/
theorem classification_by_alerts_key (sink : Option Sink) (raw : RawPayload) :
    ((alookup raw "alerts").isSome = true →
      classifyAndHandle sink raw = handleGrafanaWebhook sink raw) ∧
    ((alookup raw "alerts").isSome = false →
      classifyAndHandle sink raw = handleGenericWebhook sink raw) := by
  unfold classifyAndHandle
  constructor <;> intro h <;> simp [h]

/-- Witness for C1: a payload with "alerts" (value null) is routed to
the Grafana handler, and one without it to the generic handler. -/
theorem classification_by_alerts_key_witness :
    classifyAndHandle none [("alerts", JsonVal.null)]
      = handleGrafanaWebhook none [("alerts", JsonVal.null)] ∧
    classifyAndHandle none [("message", JsonVal.str "m")]
      = handleGenericWebhook none [("message", JsonVal.str "m")] :=
  ⟨(classification_by_alerts_key none [("alerts", JsonVal.null)]).1 rfl,
   (classification_by_alerts_key none [("message", JsonVal.str "m")]).2 rfl⟩

/-- C2: on the generic path, a payload whose "message" key holds a
non-empty string normalizes successfully with that string as the body
(and is the message sent whenever a sink is configured), while a
payload lacking "message" or holding a non-string there is answered
with the 400 missing-field response and nothing is sent. -/
theorem generic_message_field_required (sink : Option Sink)
    (raw : RawPayload) :
    (∀ s, alookup raw "message" = some (JsonVal.str s) → s ≠ "" →
      ∃ m, buildGenericMessage raw = some m ∧ m.message = s ∧
        ∀ f, (handleGenericWebhook (some f) raw).sent = some m) ∧
    ((∀ s, alookup raw "message" ≠ some (JsonVal.str s)) →
      handleGenericWebhook sink raw =
        ⟨⟨400, [("error", RespVal.str "Message field is required")]⟩,
         none⟩) := by
  constructor
  · intro s hs hne
    have hb := buildGenericMessage_of_message raw s hs hne
    exact ⟨_, hb, rfl, fun f => handleGenericWebhook_sends f raw _ hb⟩
  · intro hno
    have hl := lookupStr_of_not_str raw "message" hno
    have hb := buildGenericMessage_of_empty raw hl
    unfold handleGenericWebhook
    rw [hb]

/-- Witness for C2: the payload with body "hello" normalizes and is
delivered; the payload with only a title is rejected with 400. -/
theorem generic_message_field_required_witness :
    (∃ m, buildGenericMessage [("message", JsonVal.str "hello")] = some m ∧
       m.message = "hello" ∧
       ∀ f, (handleGenericWebhook (some f)
         [("message", JsonVal.str "hello")]).sent = some m) ∧
    handleGenericWebhook none [("title", JsonVal.str "x")] =
      ⟨⟨400, [("error", RespVal.str "Message field is required")]⟩, none⟩ :=
  ⟨(generic_message_field_required none [("message", JsonVal.str "hello")]).1
      "hello" rfl (by decide),
   (generic_message_field_required none [("title", JsonVal.str "x")]).2
      (by intro s h; simp [alookup] at h)⟩

/-- C3: on the Grafana path the delivered priority is 8 when status is
"firing" or state is "alerting", else 3 when status is "resolved" or
state is "ok", else 5; the firing/alerting rule is checked first, so
status "resolved" with state "alerting" yields 8. -/
theorem grafana_priority_policy (f : Sink) (raw : RawPayload) :
    (∃ m, (handleGrafanaWebhook (some f) raw).sent = some m ∧
      m.priority =
        (if lookupStr raw "status" = "firing" ∨
            lookupStr raw "state" = "alerting" then 8
         else if lookupStr raw "status" = "resolved" ∨
            lookupStr raw "state" = "ok" then 3
         else 5)) ∧
    (buildGrafanaMessage [("status", JsonVal.str "resolved"),
        ("state", JsonVal.str "alerting")]).priority = 8 := by
  constructor
  · refine ⟨buildGrafanaMessage raw, ?_, rfl⟩
    unfold handleGrafanaWebhook
    exact deliverResult_sent f _ _ _ _
  · rfl

/-- C4: on the generic path, a JSON-number "priority" is truncated
toward zero; the delivered priority is 5 when the truncation is ≤ 0 or
> 10 or the key is absent or not a number, and is the truncation
itself when it lies in 1..10. -/
theorem generic_priority_policy (f : Sink) (raw : RawPayload)
    (m : PluginMessage)
    (h : (handleGenericWebhook (some f) raw).sent = some m) :
    ((∀ q, alookup raw "priority" ≠ some (JsonVal.num q)) →
      m.priority = 5) ∧
    (∀ q, alookup raw "priority" = some (JsonVal.num q) →
      ((ratTrunc q ≤ 0 ∨ 10 < ratTrunc q) → m.priority = 5) ∧
      (0 < ratTrunc q → ratTrunc q ≤ 10 → m.priority = ratTrunc q)) := by
  have hb := handleGenericWebhook_sent (some f) raw m h
  have hp := (buildGenericMessage_some raw m hb).2.2.2.1
  constructor
  · intro hno
    rw [lookupPriority_of_not_num raw hno] at hp
    simpa using hp
  · intro q hq
    rw [lookupPriority_of_num raw q hq] at hp
    constructor
    · intro hout
      rw [hp, if_pos hout]
    · intro h1 h2
      rw [hp, if_neg (by omega)]

/-- Witness for C4: a payload with priority 7 is delivered with
priority `ratTrunc 7`, i.e. 7. -/
theorem generic_priority_policy_witness :
    ({ title := "Webhook Message", message := "m", priority := 7,
       extras := [] } : PluginMessage).priority = ratTrunc 7 :=
  ((generic_priority_policy okSink
      [("message", JsonVal.str "m"), ("priority", JsonVal.num 7)]
      ⟨"Webhook Message", "m", 7, []⟩ rfl).2 7 rfl).2 (by decide) (by decide)

/-- C5 counterexample: a generic payload whose "extras" object carries
a "source" entry is delivered with that entry in its metadata, so the
generic path does not guarantee the absence of "source". -/
theorem generic_source_passthrough_cex :
    ((handleGenericWebhook (some okSink)
        [("message", JsonVal.str "m"),
         ("extras", JsonVal.obj [("source", JsonVal.str "not-grafana")])]).sent.map
      (fun m => alookup m.extras "source"))
      = some (some (JsonVal.str "not-grafana")) := rfl

/-- C5 amended: on the Grafana path the metadata always contains
source = "grafana"; on the generic path the handler adds no entry of
its own — the delivered metadata is the payload's "extras" object
copied verbatim (empty when absent or not an object), so it contains
"source" exactly when that object does. -/
theorem source_metadata_amended (f : Sink) (raw : RawPayload) :
    alookup (buildGrafanaMessage raw).extras "source"
      = some (JsonVal.str "grafana") ∧
    (∀ m, (handleGenericWebhook (some f) raw).sent = some m →
      m.extras = lookupObj raw "extras") := by
  constructor
  · rfl
  · intro m h
    exact (buildGenericMessage_some raw m
      (handleGenericWebhook_sent (some f) raw m h)).2.2.2.2

/-- Witness for C5 amended: a Grafana payload carries
source = "grafana", and a generic payload's delivered metadata equals
its "extras" object. -/
theorem source_metadata_amended_witness :
    alookup (buildGrafanaMessage [("alerts", JsonVal.null)]).extras "source"
      = some (JsonVal.str "grafana") ∧
    ({ title := "Webhook Message", message := "m", priority := 5,
       extras := [("a", JsonVal.num 1)] } : PluginMessage).extras
      = lookupObj [("message", JsonVal.str "m"),
          ("extras", JsonVal.obj [("a", JsonVal.num 1)])] "extras" :=
  ⟨(source_metadata_amended okSink [("alerts", JsonVal.null)]).1,
   (source_metadata_amended okSink [("message", JsonVal.str "m"),
       ("extras", JsonVal.obj [("a", JsonVal.num 1)])]).2
     ⟨"Webhook Message", "m", 5, [("a", JsonVal.num 1)]⟩ rfl⟩

/-- The Grafana message always has priority in [1,10] and a non-empty
body. -/
lemma buildGrafanaMessage_invariant (raw : RawPayload) :
    1 ≤ (buildGrafanaMessage raw).priority ∧
    (buildGrafanaMessage raw).priority ≤ 10 ∧
    (buildGrafanaMessage raw).message ≠ "" := by
  refine ⟨?_, ?_, ?_⟩ <;> simp only [buildGrafanaMessage, grafanaPriority]
  · split
    · decide
    · split <;> decide
  · split
    · decide
    · split <;> decide
  · split
    · decide
    · next hne => exact hne

/-- A successfully normalized generic message has priority in [1,10]
and a non-empty body. -/
lemma buildGenericMessage_invariant (raw : RawPayload) (m : PluginMessage)
    (h : buildGenericMessage raw = some m) :
    1 ≤ m.priority ∧ m.priority ≤ 10 ∧ m.message ≠ "" := by
  obtain ⟨-, hne, -, hp, -⟩ := buildGenericMessage_some raw m h
  refine ⟨?_, ?_, hne⟩ <;> rw [hp] <;> split <;> omega

/-- C6: on either path, any message passed to the sink's SendMessage
has priority in [1,10] and a non-empty body. -/
theorem delivered_message_invariant (sink : Option Sink) (ct : String)
    (d : DecodeOutcome) (m : PluginMessage)
    (h : (handleWebhookMessage sink ct d).sent = some m) :
    1 ≤ m.priority ∧ m.priority ≤ 10 ∧ m.message ≠ "" := by
  unfold handleWebhookMessage at h
  split at h
  · exact absurd h (by simp)
  · unfold decodePhase at h
    split at h
    · exact absurd h (by simp)
    · exact absurd h (by simp)
    · next raw =>
      unfold classifyAndHandle at h
      split at h
      · rw [handleGrafanaWebhook_sent sink raw m h]
        exact buildGrafanaMessage_invariant raw
      · exact buildGenericMessage_invariant raw m
          (handleGenericWebhook_sent sink raw m h)

/-- Witness for C6: the message delivered for a minimal generic
payload has priority 5 and body "hi". -/
theorem delivered_message_invariant_witness :
    1 ≤ ({ title := "Webhook Message", message := "hi", priority := 5,
           extras := [] } : PluginMessage).priority ∧
    ({ title := "Webhook Message", message := "hi", priority := 5,
       extras := [] } : PluginMessage).priority ≤ 10 ∧
    ({ title := "Webhook Message", message := "hi", priority := 5,
       extras := [] } : PluginMessage).message ≠ "" :=
  delivered_message_invariant (some okSink) ""
    (Except.ok (some [("message", JsonVal.str "hi")]))
    ⟨"Webhook Message", "hi", 5, []⟩ rfl

/-- Delivery with a failing sink answers the failure response built
from the error text and records the attempted message. -/
lemma deliverResult_fail (f : Sink) (m : PluginMessage) (ok : Response)
    (fail : String → Response) (un : Response) (e : String)
    (hf : f m = some e) :
    deliverResult (some f) m ok fail un = ⟨fail e, some m⟩ := by
  simp only [deliverResult]
  rw [hf]

/-- Delivery with a succeeding sink answers the success response and
records the sent message. -/
lemma deliverResult_ok (f : Sink) (m : PluginMessage) (ok : Response)
    (fail : String → Response) (un : Response) (hf : f m = none) :
    deliverResult (some f) m ok fail un = ⟨ok, some m⟩ := by
  simp only [deliverResult]
  rw [hf]

/-- C7: on both paths, a nil sink yields 503 without a send; a send
error yields 500 with the stringified error under "details"; a
successful send yields the 200 success response (which on the Grafana
path carries "type" = "grafana"); on the generic path this holds for
every payload that passes validation. -/
theorem delivery_outcome_mapping (raw : RawPayload) :
    ((handleGrafanaWebhook none raw).response.status = 503 ∧
     (handleGrafanaWebhook none raw).sent = none) ∧
    (∀ f e, f (buildGrafanaMessage raw) = some e →
      (handleGrafanaWebhook (some f) raw).response.status = 500 ∧
      alookup (handleGrafanaWebhook (some f) raw).response.body "details"
        = some (RespVal.str e)) ∧
    (∀ f, f (buildGrafanaMessage raw) = none →
      (handleGrafanaWebhook (some f) raw).response =
        ⟨200, [("success", RespVal.bool true),
               ("message", RespVal.str "Grafana alert forwarded successfully"),
               ("type", RespVal.str "grafana")]⟩) ∧
    (∀ m, buildGenericMessage raw = some m →
      ((handleGenericWebhook none raw).response.status = 503 ∧
       (handleGenericWebhook none raw).sent = none) ∧
      (∀ f e, f m = some e →
        (handleGenericWebhook (some f) raw).response.status = 500 ∧
        alookup (handleGenericWebhook (some f) raw).response.body "details"
          = some (RespVal.str e)) ∧
      (∀ f, f m = none →
        (handleGenericWebhook (some f) raw).response =
          ⟨200, [("success", RespVal.bool true),
                 ("message",
                   RespVal.str "Message forwarded successfully")]⟩)) := by
  refine ⟨⟨rfl, rfl⟩, ?_, ?_, ?_⟩
  · intro f e hf
    unfold handleGrafanaWebhook
    rw [deliverResult_fail f _ _ _ _ e hf]
    exact ⟨rfl, rfl⟩
  · intro f hf
    unfold handleGrafanaWebhook
    rw [deliverResult_ok f _ _ _ _ hf]
  · intro m hm
    refine ⟨⟨?_, ?_⟩, ?_, ?_⟩
    · simp only [handleGenericWebhook, hm]
      rw [deliverResult_none]
    · simp only [handleGenericWebhook, hm]
      rw [deliverResult_none]
    · intro f e hf
      simp only [handleGenericWebhook, hm]
      rw [deliverResult_fail f _ _ _ _ e hf]
      exact ⟨rfl, rfl⟩
    · intro f hf
      simp only [handleGenericWebhook, hm]
      rw [deliverResult_ok f _ _ _ _ hf]

/-- Witness for C7: with a failing sink the Grafana handler answers
500 with the error under "details", without a sink both handlers
answer 503, and with a succeeding sink the generic handler answers
the 200 success response. -/
theorem delivery_outcome_mapping_witness :
    (handleGrafanaWebhook none [("message", JsonVal.str "m")]).response.status
      = 503 ∧
    (handleGrafanaWebhook (some boomSink)
      [("message", JsonVal.str "m")]).response.status = 500 ∧
    alookup (handleGrafanaWebhook (some boomSink)
      [("message", JsonVal.str "m")]).response.body "details"
      = some (RespVal.str "boom") ∧
    (handleGenericWebhook none [("message", JsonVal.str "m")]).response.status
      = 503 ∧
    (handleGenericWebhook (some okSink) [("message", JsonVal.str "m")]).response
      = ⟨200, [("success", RespVal.bool true),
               ("message", RespVal.str "Message forwarded successfully")]⟩ := by
  have T := delivery_outcome_mapping [("message", JsonVal.str "m")]
  exact ⟨T.1.1, (T.2.1 boomSink "boom" rfl).1, (T.2.1 boomSink "boom" rfl).2,
    (T.2.2.2 ⟨"Webhook Message", "m", 5, []⟩ rfl).1.1,
    (T.2.2.2 ⟨"Webhook Message", "m", 5, []⟩ rfl).2.2 okSink rfl⟩

/-- C8: a present Content-Type other than exactly "application/json"
is answered 400 with nothing sent, whatever the body would decode to;
an absent Content-Type (the empty header value) proceeds to the
decode phase. -/
theorem content_type_gate (sink : Option Sink) (ct : String)
    (d : DecodeOutcome) :
    (ct ≠ "application/json" → ct ≠ "" →
      handleWebhookMessage sink ct d =
        ⟨⟨400, [("error",
            RespVal.str "Content-Type must be application/json")]⟩, none⟩) ∧
    handleWebhookMessage sink "" d = decodePhase sink d := by
  constructor
  · intro h1 h2
    unfold handleWebhookMessage
    rw [if_pos ⟨h1, h2⟩]
  · unfold handleWebhookMessage
    rw [if_neg (by simp)]

/-- Witness for C8: "application/json; charset=utf-8" is rejected with
400 even though the body is valid. -/
theorem content_type_gate_witness :
    handleWebhookMessage none "application/json; charset=utf-8"
      (Except.ok (some [("message", JsonVal.str "m")])) =
      ⟨⟨400, [("error",
          RespVal.str "Content-Type must be application/json")]⟩, none⟩ :=
  (content_type_gate none "application/json; charset=utf-8"
    (Except.ok (some [("message", JsonVal.str "m")]))).1
    (by decide) (by decide)

/-- C9: a generic payload whose "message" key holds the empty string
is answered with the same 400 missing-field response as an absent
"message", and nothing is sent. -/
theorem empty_message_rejected (sink : Option Sink) (raw : RawPayload)
    (h : alookup raw "message" = some (JsonVal.str "")) :
    handleGenericWebhook sink raw =
      ⟨⟨400, [("error", RespVal.str "Message field is required")]⟩, none⟩ := by
  have hl := lookupStr_of_str raw "message" "" h
  have hb := buildGenericMessage_of_empty raw hl
  unfold handleGenericWebhook
  rw [hb]

/-- Witness for C9: the payload with "message" = "" is rejected with
the 400 missing-field response. -/
theorem empty_message_rejected_witness :
    handleGenericWebhook none [("message", JsonVal.str "")] =
      ⟨⟨400, [("error", RespVal.str "Message field is required")]⟩, none⟩ :=
  empty_message_rejected none [("message", JsonVal.str "")] rfl

/-- C10: the Grafana-path message is a function of the payload's
values at the seven keys "title", "message", "status", "state",
"externalURL", "dashboardURL", "silenceURL" only: two payloads
agreeing there produce identical messages and handler results,
whatever "alerts" or other keys hold. -/
theorem grafana_depends_only_on_seven_keys (r₁ r₂ : RawPayload)
    (ht : alookup r₁ "title" = alookup r₂ "title")
    (hm : alookup r₁ "message" = alookup r₂ "message")
    (hs : alookup r₁ "status" = alookup r₂ "status")
    (hst : alookup r₁ "state" = alookup r₂ "state")
    (he : alookup r₁ "externalURL" = alookup r₂ "externalURL")
    (hd : alookup r₁ "dashboardURL" = alookup r₂ "dashboardURL")
    (hsi : alookup r₁ "silenceURL" = alookup r₂ "silenceURL") :
    buildGrafanaMessage r₁ = buildGrafanaMessage r₂ ∧
    ∀ sink, handleGrafanaWebhook sink r₁ = handleGrafanaWebhook sink r₂ := by
  have hb : buildGrafanaMessage r₁ = buildGrafanaMessage r₂ := by
    simp only [buildGrafanaMessage, grafanaExtras,
      lookupStr_congr r₁ r₂ "title" ht, lookupStr_congr r₁ r₂ "message" hm,
      lookupStr_congr r₁ r₂ "status" hs, lookupStr_congr r₁ r₂ "state" hst,
      lookupStr_congr r₁ r₂ "externalURL" he,
      lookupStr_congr r₁ r₂ "dashboardURL" hd,
      lookupStr_congr r₁ r₂ "silenceURL" hsi]
  refine ⟨hb, fun sink => ?_⟩
  unfold handleGrafanaWebhook
  rw [hb]

/-- Witness for C10: two payloads differing in "alerts" and an extra
key but agreeing on the seven relevant keys produce the same
message. -/
theorem grafana_depends_only_on_seven_keys_witness :
    buildGrafanaMessage [("title", JsonVal.str "T"),
        ("alerts", JsonVal.arr []), ("foo", JsonVal.num 1)]
      = buildGrafanaMessage [("title", JsonVal.str "T"),
          ("alerts", JsonVal.null)] :=
  (grafana_depends_only_on_seven_keys
    [("title", JsonVal.str "T"), ("alerts", JsonVal.arr []),
     ("foo", JsonVal.num 1)]
    [("title", JsonVal.str "T"), ("alerts", JsonVal.null)]
    rfl rfl rfl rfl rfl rfl rfl).1
